import Mathlib

/-!
Verification of the InterviewIQ response-scoring and report-aggregation
pipeline (`backend/core`), as a shallow embedding in Lean 4.

The embedding follows the live code imported through the
`core/services` package (`helper_functions.py`, `interview_service.py`,
`ai_service.py`) and the `submit_response` view in
`views/interview_views.py`.  The legacy monolith `core/services.py`
(shadowed at import time by the `core/services` package, hence dead at
runtime) is embedded separately under the `Services` namespace where a
claim cites it.

Modelling conventions:
* numbers the Python code handles as ints/floats are `Nat`/`Int`/`ℚ`;
  Python `int(...)` truncation toward zero is `pyInt`;
* Python dictionary entries that may be absent are `Option` fields, and
  Python truthiness of such an entry is `truthyQ`/`truthyStr`;
* string scanning is done on `List Char` (one entry per code point,
  matching Python `len`/indexing); lowercasing is ASCII `lowerChar`,
  which agrees with Python `str.lower()` on the ASCII cue/stop word
  lists the code matches against.
-/

/-- Python `int(q)` for a real/rational value: truncation toward zero. -/
def pyInt (q : ℚ) : Int := if 0 ≤ q then ⌊q⌋ else ⌈q⌉

/-- Python `round(q)` at zero digits: round half to even (banker's rounding). -/
def pyRound (q : ℚ) : Int :=
  let f := ⌊q⌋
  let frac := q - f
  if frac < 1/2 then f
  else if frac > 1/2 then f + 1
  else if f % 2 = 0 then f else f + 1

/-- ASCII lowercasing of one character, as Python `str.lower()` acts on
ASCII text. -/
def lowerChar (c : Char) : Char :=
  if 65 ≤ c.toNat ∧ c.toNat ≤ 90 then Char.ofNat (c.toNat + 32) else c

/-- `s.lower()` as a character list. -/
def lowerStr (s : String) : List Char := s.toList.map lowerChar

/-- Python `needle in hay`: contiguous substring occurrence. -/
def listContains (hay needle : List Char) : Bool :=
  hay.tails.any (fun t => needle.isPrefixOf t)

/-- Python `str.split()` with no argument: split on whitespace runs,
ignoring leading and trailing whitespace.  `acc` is the current word,
reversed. -/
def wordsAux : List Char → List Char → List (List Char)
  | [], acc => if acc = [] then [] else [acc.reverse]
  | c :: rest, acc =>
    if c.isWhitespace then
      (if acc = [] then wordsAux rest [] else acc.reverse :: wordsAux rest [])
    else wordsAux rest (c :: acc)

/-- Python `s.split()`. -/
def pyWords (s : String) : List (List Char) := wordsAux s.toList []

/-- Python `s.strip()`. -/
def pyStrip (s : String) : List Char :=
  ((s.toList.dropWhile Char.isWhitespace).reverse.dropWhile Char.isWhitespace).reverse

/-- Python truthiness of a possibly-absent numeric dictionary entry:
false when the key is absent or the number is zero. -/
def truthyQ (o : Option ℚ) : Bool :=
  match o with
  | some q => q != 0
  | none => false

/-- Python truthiness of a possibly-absent string value. -/
def truthyStr (o : Option String) : Bool :=
  match o with
  | some s => s ≠ ""
  | none => false

/-! ## TextHeuristics: `helper_functions.detect_star_method` -/

/-- The four STAR cue lists of `helper_functions.detect_star_method`. -/
def situationCues : List String :=
  ["situation", "when i was", "at my previous", "in my role", "while working"]

def taskCues : List String :=
  ["task", "needed to", "had to", "responsible for", "my goal was"]

def actionCues : List String :=
  ["i did", "i created", "i implemented", "i decided", "my approach", "i developed"]

def resultCues : List String :=
  ["result", "outcome", "achieved", "improved", "increased", "successfully"]

/-- Number of the four STAR cue categories with at least one
case-insensitive substring match in the transcript (the
`sum([has_s, has_t, has_a, has_r])` of the source). -/
def starCategoryCount (transcript : String) : Nat :=
  let tl := lowerStr transcript
  let hit := fun (cues : List String) => cues.any (fun i => listContains tl i.toList)
  (if hit situationCues then 1 else 0) + (if hit taskCues then 1 else 0) +
    (if hit actionCues then 1 else 0) + (if hit resultCues then 1 else 0)

/-- `helper_functions.detect_star_method`: returns `(used_star, star_score)`.
Empty or sub-20-character transcripts short-circuit to `(false, 0)`;
otherwise `star_score` counts matching cue categories and
`used_star = (star_score >= 3)`. -/
def detect_star_method (transcript : String) : Bool × Nat :=
  if transcript = "" ∨ transcript.length < 20 then (false, 0)
  else
    let star_score := starCategoryCount transcript
    (decide (star_score ≥ 3), star_score)

/-! ## TextHeuristics: `helper_functions.calculate_content_quality` -/

/-- Python `re.search(r'\d+', s)` viewed as a Boolean: some digit occurs. -/
def hasDigit (s : String) : Bool := s.toList.any Char.isDigit

def isUpperA (c : Char) : Bool := decide (65 ≤ c.toNat ∧ c.toNat ≤ 90)

def isLowerA (c : Char) : Bool := decide (97 ≤ c.toNat ∧ c.toNat ≤ 122)

/-- Match `[A-Z][a-z]+` at the head of the list, returning the remainder. -/
def matchCapWord : List Char → Option (List Char)
  | [] => none
  | c :: rest =>
    if isUpperA c then
      if rest.takeWhile isLowerA = [] then none else some (rest.dropWhile isLowerA)
    else none

/-- Match `\s+[A-Z][a-z]+` at the head of the list. -/
def matchSpacesCapWord (l : List Char) : Option (List Char) :=
  if l.takeWhile Char.isWhitespace = [] then none
  else matchCapWord (l.dropWhile Char.isWhitespace)

/-- Python `re.search(r'[A-Z][a-z]+(?:\s+[A-Z][a-z]+)+', s)` viewed as a
Boolean: two or more consecutive capitalised words occur somewhere.
Since the character classes `[A-Z]`, `[a-z]`, `\s` are pairwise
disjoint, maximal-munch matching at every start position is equivalent
to the backtracking regex search. -/
def hasProperNounPattern (s : String) : Bool :=
  s.toList.tails.any (fun t =>
    match matchCapWord t with
    | some r => (matchSpacesCapWord r).isSome
    | none => false)

/-- Example-signal phrases of `calculate_content_quality`. -/
def examplePhrases : List String := ["for example", "specifically", "such as"]

/-- Stop words removed before the relevance overlap is computed. -/
def commonWords : List (List Char) :=
  ["the", "a", "an", "is", "are", "was", "were", "be", "of", "in", "to", "for",
    "on", "at"].map String.toList

/-- Length sub-score (0-30) from the whitespace word count. -/
def contentLengthScore (word_count : Nat) : ℚ :=
  if word_count ≥ 80 then 30
  else if word_count ≥ 60 then 25
  else if word_count ≥ 40 then 20
  else if word_count ≥ 20 then 10
  else 5

/-- Raw specificity points before the cap at 25. -/
def contentSpecificityRaw (answer_text : String) : Nat :=
  (if hasDigit answer_text then 8 else 0) +
    (if examplePhrases.any (fun p => listContains (lowerStr answer_text) p.toList) then 10 else 0) +
    (if hasProperNounPattern answer_text then 7 else 0)

/-- Structure sub-score (0-20) from STAR detection. -/
def contentStructureScore (answer_text : String) : ℚ :=
  let st := detect_star_method answer_text
  if st.1 then 20 else if st.2 ≥ 2 then 10 else 0

/-- Distinct non-stop-word words of the question (set semantics). -/
def questionKeywords (question_text : String) : List (List Char) :=
  ((wordsAux (lowerStr question_text) []).filter (fun w => w ∉ commonWords)).dedup

/-- Relevance sub-score (0-25): keyword-overlap fraction scaled to 25,
or the default 15 when the question has no keywords. -/
def contentRelevanceScore (question_text answer_text : String) : ℚ :=
  let q_words := questionKeywords question_text
  let a_words := (wordsAux (lowerStr answer_text) []).filter (fun w => w ∉ commonWords)
  if q_words ≠ [] then
    let overlap := (q_words.filter (fun w => w ∈ a_words)).length
    min 25 ((overlap : ℚ) / (q_words.length : ℚ) * 25)
  else 15

/-- `helper_functions.calculate_content_quality`: 0 for an empty answer or
one whose stripped length is under 5 characters; otherwise the sum of
the four sub-scores, truncated to an int and capped at 100. -/
def calculate_content_quality (question_text answer_text : String) : Int :=
  if answer_text = "" ∨ (pyStrip answer_text).length < 5 then 0
  else
    let word_count := (pyWords answer_text).length
    let score : ℚ := contentLengthScore word_count +
      ((min 25 (contentSpecificityRaw answer_text) : Nat) : ℚ) +
      contentStructureScore answer_text +
      contentRelevanceScore question_text answer_text
    min 100 (pyInt score)

/-! ## TextHeuristics: `helper_functions.calculate_percentile` (live)
and the legacy `services.calculate_percentile` -/

/-- Scan a descending threshold table, returning the band of the first
threshold not exceeding the score (the shared
`for threshold, percentile in sorted(thresholds.items(), reverse=True)`
loop of both copies). -/
def percentileScan (table : List (ℚ × Nat)) (score : ℚ) : String :=
  match table.find? (fun tp => decide (tp.1 ≤ score)) with
  | some tp => toString tp.2 ++ "th percentile"
  | none => "Below 10th percentile"

/-- `helper_functions.calculate_percentile` (the copy the application
imports): a single threshold table; the `metric_type` parameter is
accepted but never read. -/
def calculate_percentile (score : ℚ) (metric_type : String) : String :=
  percentileScan [(90, 90), (80, 75), (70, 60), (60, 45), (50, 30), (40, 20), (30, 10)] score

namespace Services

/-- Legacy `services.calculate_percentile`: per-metric threshold tables,
with `percentiles.get(metric_type, percentiles['overall'])` falling back
to the overall table for unknown metric types. -/
def calculate_percentile (score : ℚ) (metric_type : String) : String :=
  let overallTable : List (ℚ × Nat) :=
    [(90, 90), (80, 75), (70, 60), (60, 45), (50, 30), (40, 20), (30, 10)]
  let communicationTable : List (ℚ × Nat) :=
    [(90, 85), (80, 70), (70, 55), (60, 40), (50, 25), (40, 15), (30, 8)]
  let table :=
    if metric_type = "overall" then overallTable
    else if metric_type = "communication" then communicationTable
    else overallTable
  percentileScan table score

end Services

/-! ## MetricsNormalizer: `helper_functions.validate_and_normalize_metrics` -/

/-- The `voiceMetrics` sub-dictionary as the normalizer reads and writes
it.  `none` in `filler_words` stands for "absent or not a dict". -/
structure VoiceMetricsRaw where
  word_count : Option ℚ
  words_per_minute : Option ℚ
  speaking_duration_seconds : Option ℚ
  filler_words : Option (List (String × ℚ))
  pause_count : Option ℚ
  average_volume : Option ℚ
deriving DecidableEq

/-- The `{}` default of `fluency_metrics.get('voiceMetrics', {})`. -/
def emptyVoice : VoiceMetricsRaw := ⟨none, none, none, none, none, none⟩

/-- Step 1 of `validate_and_normalize_metrics`: compute `word_count`
from the transcript when the entry is missing or falsy. -/
def nvWordCount (v : VoiceMetricsRaw) (user_transcript : String) : VoiceMetricsRaw :=
  if truthyQ v.word_count then v
  else { v with word_count := some ((pyWords user_transcript).length : ℚ) }

/-- Step 2: with a truthy positive duration and a falsy
`words_per_minute`, set `words_per_minute = int(word_count/duration*60)`;
with no truthy duration, `setdefault` the wpm to 120 and back-fill
`speaking_duration_seconds = word_count / 2`. -/
def nvWpmFromDuration (v : VoiceMetricsRaw) : VoiceMetricsRaw :=
  if truthyQ v.words_per_minute = false ∧ 0 < v.speaking_duration_seconds.getD 0 then
    let wpm : ℚ := (pyInt (v.word_count.getD 0 / v.speaking_duration_seconds.getD 0 * 60) : ℤ)
    { v with words_per_minute := some wpm }
  else v

/-- The no-truthy-duration branch: `setdefault('words_per_minute', 120)`
then `speaking_duration_seconds = word_count / 2` (the `setdefault`
never touches `word_count`, so the two assignments are written as one
conditional here). -/
def nvWpmDefault (v : VoiceMetricsRaw) : VoiceMetricsRaw :=
  if v.words_per_minute.isSome then
    { v with speaking_duration_seconds := some (v.word_count.getD 0 / 2) }
  else
    { v with words_per_minute := some 120,
             speaking_duration_seconds := some (v.word_count.getD 0 / 2) }

def nvWpm (v : VoiceMetricsRaw) : VoiceMetricsRaw :=
  if truthyQ v.speaking_duration_seconds then nvWpmFromDuration v
  else nvWpmDefault v

/-- Step 3: replace a missing-or-non-dict `filler_words` by `{}`. -/
def nvFiller (v : VoiceMetricsRaw) : VoiceMetricsRaw :=
  if v.filler_words.isSome then v else { v with filler_words := some [] }

/-- Step 4: `setdefault('pause_count', 0)`. -/
def nvPause (v : VoiceMetricsRaw) : VoiceMetricsRaw :=
  if v.pause_count.isSome then v else { v with pause_count := some 0 }

/-- Step 5: `setdefault('average_volume', 0.5)`. -/
def nvAvgVol (v : VoiceMetricsRaw) : VoiceMetricsRaw :=
  if v.average_volume.isSome then v else { v with average_volume := some 0.5 }

/-- The in-place mutations `validate_and_normalize_metrics` performs on
the `voiceMetrics` dictionary: the five source stanzas in order. -/
def normalizeVoice (v : VoiceMetricsRaw) (user_transcript : String) : VoiceMetricsRaw :=
  nvAvgVol (nvPause (nvFiller (nvWpm (nvWordCount v user_transcript))))

/-- The top-level `fluency_metrics` mapping: the `voiceMetrics` entry the
function reads and rewrites, and all other top-level entries (opaque to
the function). -/
structure FluencyMetrics where
  voiceMetrics : Option VoiceMetricsRaw
  extra : List (String × String)
deriving DecidableEq

/-- `helper_functions.validate_and_normalize_metrics`: reads
`voiceMetrics` (defaulting to the empty dict), normalizes it, and writes
it back; no other top-level entry is touched. -/
def validate_and_normalize_metrics (m : FluencyMetrics) (user_transcript : String) :
    FluencyMetrics :=
  { voiceMetrics := some (normalizeVoice (m.voiceMetrics.getD emptyVoice) user_transcript),
    extra := m.extra }

/-! ## ProviderGateway: `ai_service.call_ai`

Each backend is an opaque capability `prompt × temperature → text or
raise` (the view the gateway itself takes of them).  An `AIEnv` fixes
the module-level `HAS_*` availability flags, one outcome function per
backend call site, and a deterministic abstraction of the
Gemini/OpenRouter race schedule: which future completes first and how
many complete before the 15-second `as_completed` timeout. -/

/-- Environment of `call_ai`: availability flags and backend behaviours.
`Except String α` is "returns `α` or raises". -/
structure AIEnv where
  hasGroq : Bool
  hasCerebras : Bool
  hasGemini : Bool
  hasOpenRouter : Bool
  hasBytez : Bool
  hasOpenAI : Bool
  hasPerplexity : Bool
  groq : String → ℚ → Except String String
  cerebras : String → ℚ → Except String String
  gemini : String → ℚ → Except String (Option String)
  openrouter : String → ℚ → Except String (Option String)
  bytez : String → ℚ → Except String (Option String × Option String)
  openaiMini : String → ℚ → Except String String
  openai35 : String → ℚ → Except String String
  perpSmall : String → ℚ → Except String String
  perpLarge : String → ℚ → Except String String
  perpSonar : String → ℚ → Except String String
  geminiFirst : Bool
  raceCompletions : Nat

/-- All seven `HAS_*` flags are off: zero configured backends. -/
def AIEnv.allOff (env : AIEnv) : Bool :=
  !env.hasGroq && !env.hasCerebras && !env.hasGemini && !env.hasOpenRouter &&
    !env.hasBytez && !env.hasOpenAI && !env.hasPerplexity

/-- One guarded provider block of `call_ai`: when the flag is set, try
the models in order; a raise is caught and the next model is tried; the
first non-raising model's text is returned as-is. -/
def tryModels (flag : Bool) (calls : List (Except String String)) : Option String :=
  if flag then
    calls.findSome? (fun c =>
      match c with
      | .ok s => some s
      | .error _ => none)
  else none

/-- The Gemini/OpenRouter race of `call_ai`: futures are submitted only
for enabled providers, completions are consumed in completion order up
to the 15-second timeout, a future that raised is caught and skipped,
and the first truthy result wins. -/
def raceWinner (env : AIEnv) (prompt : String) (temperature : ℚ) : Option String :=
  let submitted :=
    (if env.hasGemini then [env.gemini prompt temperature] else []) ++
      (if env.hasOpenRouter then [env.openrouter prompt temperature] else [])
  let ordered := if env.geminiFirst then submitted else submitted.reverse
  let completed := ordered.take env.raceCompletions
  completed.findSome? (fun r =>
    match r with
    | .ok (some s) => if s ≠ "" then some s else none
    | .ok none => none
    | .error _ => none)

/-- The Bytez fallback block: a raise is caught; a truthy `error` return
value is logged and skipped; a truthy `output` is returned. -/
def tryBytez (flag : Bool) (call : Except String (Option String × Option String)) :
    Option String :=
  if flag then
    match call with
    | .error _ => none
    | .ok (output, err) =>
      if truthyStr err then none
      else if truthyStr output then output
      else none
  else none

/-- `ai_service.call_ai`: Groq, then Cerebras, then the
Gemini/OpenRouter race, then Bytez, then two OpenAI models, then three
Perplexity models; `none` on total exhaustion.  The result is an
`Except` so that an uncaught backend exception would be visible as
`.error`; every backend interaction is guarded exactly as the source's
`try/except` blocks are. -/
def call_ai (env : AIEnv) (prompt : String) (temperature : ℚ) :
    Except String (Option String) :=
  match tryModels env.hasGroq [env.groq prompt temperature] with
  | some s => .ok (some s)
  | none =>
  match tryModels env.hasCerebras [env.cerebras prompt temperature] with
  | some s => .ok (some s)
  | none =>
  match raceWinner env prompt temperature with
  | some s => .ok (some s)
  | none =>
  match tryBytez env.hasBytez (env.bytez prompt temperature) with
  | some s => .ok (some s)
  | none =>
  match tryModels env.hasOpenAI
      [env.openaiMini prompt temperature, env.openai35 prompt temperature] with
  | some s => .ok (some s)
  | none =>
  match tryModels env.hasPerplexity
      [env.perpSmall prompt temperature, env.perpLarge prompt temperature,
        env.perpSonar prompt temperature] with
  | some s => .ok (some s)
  | none => .ok none

/-! ## ResponseEvaluator: the `submit_response` view
(`views/interview_views.py`), skip-sentinel handling -/

/-- The per-answer analysis record built by `submit_response` /
`InterviewEngine.analyze_response`. -/
structure Analysis where
  is_answer_correct : Bool
  correctness_feedback : String
  sentiment_score : ℚ
  grammar_errors : List String
  feedback_text : String
  strengths : List String
  weaknesses : List String
  improvement_tips : List String
  recommended_resources : List (String × String × String)
  star_method_used : Bool
  content_quality_score : Int
deriving DecidableEq

/-- The reserved skip sentinel of `submit_response`. -/
def skipSentinel : String := "[Question skipped - no answer provided]"

/-- The fixed skipped-answer record of `submit_response`
(`interview_views.py` lines 433-448). -/
def skippedAnalysis : Analysis :=
  { is_answer_correct := false,
    correctness_feedback :=
      "Question was not answered. The AI cannot evaluate correctness without a response.",
    sentiment_score := 0,
    grammar_errors := [],
    feedback_text := "Question was skipped. Try to answer all questions for better practice.",
    strengths := ["Knowing when to move on can be strategic in real interviews"],
    weaknesses := ["Try to attempt every question, even with a partial answer",
      "Practice builds confidence - skip less over time"],
    improvement_tips := ["Even a brief answer shows effort",
      "Say \"I would approach this by...\" if unsure"],
    recommended_resources :=
      [("How to Answer Interview Questions You Don't Know",
        "https://www.youtube.com/results?search_query=how+to+answer+interview+questions+you+dont+know",
        "Handling unknown questions"),
       ("Interview Tips for Beginners",
        "https://www.youtube.com/results?search_query=interview+tips+for+beginners",
        "Basic interview skills")],
    star_method_used := false,
    content_quality_score := 0 }

/-- The transcript/skip-handling core of `submit_response`: the raw
transcript is stripped; an empty result is replaced by the skip
sentinel; a sentinel transcript short-circuits to the fixed
`skippedAnalysis` without invoking the analysis engine; otherwise the
engine (`InterviewEngine.analyze_response`, with the question text and
metrics abstracted into it) runs on the transcript.  The engine returns
its analysis together with the number of provider-gateway calls it
performed; the result triple is (analysis, gateway calls made, stored
transcript). -/
def submit_response_analysis (transcript : String)
    (engine : String → Analysis × Nat) : Analysis × Nat × String :=
  let t0 : String := ⟨pyStrip transcript⟩
  let t := if t0 = "" then skipSentinel else t0
  if t = skipSentinel then (skippedAnalysis, 0, t)
  else
    let (a, calls) := engine t
    (a, calls, t)

/-! ## ReportAggregator: `interview_service.generate_final_report` (live)
and the legacy `services.generate_final_report` score core -/

/-- One persisted answer record, carrying the values the report
generators read from it (`fluency_score`, `sentiment_score`, the
`voiceMetrics` sub-dictionary of `body_language_metadata` with numeric
defaults already applied, the STAR/content fields of the metadata, the
grammar errors, and the parent question's category). -/
structure RespRecord where
  fluency_score : ℚ
  sentiment_score : ℚ
  words_per_minute : ℚ
  filler_sum : ℚ
  word_count : ℚ
  pause_count : ℚ
  star_method_used : Bool
  content_quality_score : Option ℚ
  grammar_errors : List String
  category : String
deriving DecidableEq

/-- Average words-per-minute over the records. -/
def avgWpm (rs : List RespRecord) : ℚ := (rs.map (·.words_per_minute)).sum / rs.length

/-- Average filler-word count per answer. -/
def avgFillers (rs : List RespRecord) : ℚ := (rs.map (·.filler_sum)).sum / rs.length

/-- Average word count per answer. -/
def avgWords (rs : List RespRecord) : ℚ := (rs.map (·.word_count)).sum / rs.length

/-- Average fluency score. -/
def avgFluency (rs : List RespRecord) : ℚ := (rs.map (·.fluency_score)).sum / rs.length

/-- Average sentiment score. -/
def avgSentiment (rs : List RespRecord) : ℚ := (rs.map (·.sentiment_score)).sum / rs.length

/-- Percentage of answers flagged as using the STAR method. -/
def starPct (rs : List RespRecord) : ℚ :=
  ((rs.filter (·.star_method_used)).length : ℚ) / (rs.length : ℚ) * 100

/-- Average content-quality score over the records that carry one,
defaulting to 50 when none does. -/
def avgContent (rs : List RespRecord) : ℚ :=
  let cs := rs.filterMap (·.content_quality_score)
  if cs = [] then 50 else cs.sum / cs.length

/-- `pace_score`: 100 inside the ideal 100-150 wpm band, otherwise a
0.8-per-wpm symmetric penalty around 125. -/
def paceScore (rs : List RespRecord) : ℚ :=
  if 100 ≤ avgWpm rs ∧ avgWpm rs ≤ 150 then 100
  else max 0 (100 - |avgWpm rs - 125| * 0.8)

/-- `filler_penalty = min(50, avg_fillers * 12)`. -/
def fillerPenalty (rs : List RespRecord) : ℚ := min 50 (avgFillers rs * 12)

/-- `comm_score`, clipped to [0, 100] after int truncation (identical in
the live and legacy generators). -/
def commScore (rs : List RespRecord) : Int :=
  max 0 (min 100 (pyInt (paceScore rs * 0.5 + (100 - fillerPenalty rs) * 0.3 +
    avgFluency rs * 20)))

/-- `depth_score = min(100, avg_words * 1.5)`. -/
def depthScore (rs : List RespRecord) : ℚ := min 100 (avgWords rs * 1.5)

/-- `sentiment_adj = avg_sentiment * 50 + 50`. -/
def sentimentAdj (rs : List RespRecord) : ℚ := avgSentiment rs * 50 + 50

/-- `content_score`, clipped to [0, 100] after int truncation (identical
in the live and legacy generators). -/
def contentScore (rs : List RespRecord) : Int :=
  max 0 (min 100 (pyInt (avgContent rs * 0.5 + depthScore rs * 0.3 +
    sentimentAdj rs * 0.2)))

/-- Live overall score: the 0.5/0.5 blend of
`interview_service.generate_final_report`. -/
def overallScore (rs : List RespRecord) : Int :=
  max 0 (min 100 (pyInt ((commScore rs : ℚ) * 0.5 + (contentScore rs : ℚ) * 0.5)))

/-- One `category_scores` entry of a report (the legacy Communication
entry also carries a percentile band). -/
structure CategoryScore where
  name : String
  score : Int
  percentile : Option String
deriving DecidableEq

/-- The session report built by `interview_service.generate_final_report`
(key-metrics numbers kept numeric; Python float string formatting of the
narrative interpolations is modelled by `toString` of the value). -/
structure FinalReport where
  overall_score : Int
  percentile : String
  category_scores : List CategoryScore
  strengths : List String
  areas_for_improvement : List String
  total_questions : Nat
  avg_words : Int
  speaking_pace : Int
  star_usage : ℚ
  recommendations : List String
  progress_note : String
deriving DecidableEq

/-- The report the live generator builds for a non-empty record list. -/
def liveReport (rs : List RespRecord) : FinalReport :=
  { overall_score := overallScore rs,
    percentile := calculate_percentile (overallScore rs : ℚ) "overall",
    category_scores :=
      [⟨"Communication", commScore rs, none⟩,
       ⟨"Content Quality", contentScore rs, none⟩],
    strengths :=
      (if 100 ≤ avgWpm rs ∧ avgWpm rs ≤ 150 then
        ["Good pace (" ++ toString (pyInt (avgWpm rs)) ++ " wpm)"] else []) ++
      (if avgFillers rs ≤ 2 then ["Minimal filler words"] else []) ++
      (if starPct rs ≥ 50 then
        ["Good STAR usage (" ++ toString (pyRound (starPct rs)) ++ "%)"] else []),
    areas_for_improvement :=
      (if avgWords rs < 40 then ["Answers too brief"] else []) ++
      (if avgFillers rs > 3 then
        ["High filler count (" ++ toString (avgFillers rs) ++ "/answer)"] else []) ++
      (if starPct rs < 30 then ["Use STAR method more"] else []),
    total_questions := rs.length,
    avg_words := pyInt (avgWords rs),
    speaking_pace := pyInt (avgWpm rs),
    star_usage := starPct rs,
    recommendations := ["Practice STAR method", "Track filler words"],
    progress_note := "Keep practicing - you're improving!" }

/-- `interview_service.generate_final_report` over the session's answer
records: the empty collection is rejected with the distinct
`"No responses found."` error before any score is computed or cached;
otherwise the deterministic report is built (and, in the source, then
cached on the session). -/
def generate_final_report (rs : List RespRecord) : Except String FinalReport :=
  if rs = [] then .error "No responses found." else .ok (liveReport rs)

namespace Services

/-- Responses whose question category contains `"technical"`
(case-insensitive), as filtered by the legacy generator. -/
def technicalResponses (rs : List RespRecord) : List RespRecord :=
  rs.filter (fun r => listContains (lowerStr r.category) "technical".toList)

/-- Responses whose question category contains `"behavioral"`. -/
def behavioralResponses (rs : List RespRecord) : List RespRecord :=
  rs.filter (fun r => listContains (lowerStr r.category) "behavioral".toList)

/-- `tech_score = content_score if technical_responses else content_score`
(both branches of the source are the content score). -/
def techScore (rs : List RespRecord) : Int :=
  if technicalResponses rs ≠ [] then contentScore rs else contentScore rs

/-- `behavioral_score`, likewise the content score in both branches. -/
def behavioralScore (rs : List RespRecord) : Int :=
  if behavioralResponses rs ≠ [] then contentScore rs else contentScore rs

/-- Legacy overall score: the 0.4/0.4/0.1/0.1 blend of
`services.generate_final_report`. -/
def overallScore (rs : List RespRecord) : Int :=
  max 0 (min 100 (pyInt ((commScore rs : ℚ) * 0.4 + (contentScore rs : ℚ) * 0.4 +
    (techScore rs : ℚ) * 0.1 + (behavioralScore rs : ℚ) * 0.1)))

/-- The `category_scores` list the legacy generator emits (identically in
its AI-narrative path and its deterministic fallback path). -/
def categoryScores (rs : List RespRecord) : List CategoryScore :=
  [⟨"Communication", commScore rs,
      some (Services.calculate_percentile (commScore rs : ℚ) "communication")⟩,
   ⟨"Content Quality", contentScore rs, none⟩,
   ⟨if technicalResponses rs ≠ [] then "Technical" else "Domain Knowledge",
      techScore rs, none⟩,
   ⟨"Behavioral", behavioralScore rs, none⟩]

/-- The deterministic score/category core of the legacy
`services.generate_final_report` (lines 1563-1711): empty record lists
are rejected with the distinct error; otherwise the overall score and
the four-entry category list (the narrative fields of the legacy report
are provider-dependent text and are not part of this score core). -/
def generate_final_report (rs : List RespRecord) :
    Except String (Int × List CategoryScore) :=
  if rs = [] then .error "No responses found for this session."
  else .ok (Services.overallScore rs, categoryScores rs)

end Services

/-! # Claims -/

/-- **C6**: for every transcript, `detect_star_method` reports
`used = true` iff its component score is at least 3; empty or
sub-20-character transcripts yield `(false, 0)`; for all other
transcripts the component score is exactly the number of matched STAR
cue categories; and the 3-vs-2 boundary is exact on concrete
transcripts matching exactly 3 resp. exactly 2 categories. -/
theorem detect_star_threshold :
    (∀ t : String, ((detect_star_method t).1 = true ↔ 3 ≤ (detect_star_method t).2))
    ∧ (∀ t : String, t = "" ∨ t.length < 20 → detect_star_method t = (false, 0))
    ∧ (∀ t : String, ¬(t = "" ∨ t.length < 20) →
        (detect_star_method t).2 = starCategoryCount t)
    ∧ detect_star_method "The task: I did it, and the result was good" = (true, 3)
    ∧ detect_star_method "the task was hard and the result was fine ok" = (false, 2) := by
  refine ⟨fun t => ?_, fun t h => ?_, fun t h => ?_, by decide, by decide⟩
  · unfold detect_star_method
    split
    · simp
    · simp
  · unfold detect_star_method
    exact if_pos h
  · unfold detect_star_method
    rw [if_neg h]

/-- Witness for `detect_star_threshold` at concrete transcripts. -/
theorem detect_star_threshold_witness :
    detect_star_method "" = (false, 0)
    ∧ (detect_star_method "I did the task with a result eventually").2 =
        starCategoryCount "I did the task with a result eventually" :=
  ⟨detect_star_threshold.2.1 "" (Or.inl rfl),
   detect_star_threshold.2.2.1 "I did the task with a result eventually" (by decide)⟩

/-- **C7 counterexample**: the percentile function the application
imports (`helper_functions.calculate_percentile`) returns the same band
for `metric_type="communication"` and `metric_type="overall"` at every
integer score 0..100 — there is no score where the two differ, contrary
to the claimed distinct threshold tables. -/
theorem live_percentile_ignores_metric_type_cex :
    ((List.range 101).all (fun s =>
      calculate_percentile (s : ℚ) "communication" ==
        calculate_percentile (s : ℚ) "overall")) = true := by
  decide

/-- **C7 amended**: the live `calculate_percentile` ignores
`metric_type` entirely (one fixed table); only the dead legacy
`services.calculate_percentile` has the claimed distinct tables, where
communication and overall do differ (e.g. at score 85) and unknown
metric types fall back to the overall table. -/
theorem percentile_tables :
    (∀ (s : ℚ) (mt1 mt2 : String), calculate_percentile s mt1 = calculate_percentile s mt2)
    ∧ Services.calculate_percentile 85 "communication" = "70th percentile"
    ∧ Services.calculate_percentile 85 "overall" = "75th percentile"
    ∧ (∀ (s : ℚ) (mt : String), mt ≠ "overall" → mt ≠ "communication" →
        Services.calculate_percentile s mt = Services.calculate_percentile s "overall") := by
  refine ⟨fun s mt1 mt2 => rfl, by decide, by decide, fun s mt h1 h2 => ?_⟩
  unfold Services.calculate_percentile
  simp [h1, h2]

/-- Witness for `percentile_tables` at concrete scores and metric types. -/
theorem percentile_tables_witness :
    calculate_percentile 42 "communication" = calculate_percentile 42 "overall"
    ∧ Services.calculate_percentile 55 "fancy" = Services.calculate_percentile 55 "overall" :=
  ⟨percentile_tables.1 42 "communication" "overall",
   percentile_tables.2.2.2 55 "fancy" (by decide) (by decide)⟩

/-- **C2**: a submitted transcript equal to the skip sentinel
short-circuits `submit_response` to the fixed skipped-answer record —
`is_answer_correct = false`, `sentiment_score = 0`,
`star_method_used = false`, `content_quality_score = 0` — with zero
calls into the analysis engine (hence zero provider-gateway calls),
for every possible engine behaviour. -/
theorem submit_skip_sentinel_bypasses_scoring :
    ∀ engine : String → Analysis × Nat,
      submit_response_analysis skipSentinel engine = (skippedAnalysis, 0, skipSentinel)
      ∧ skippedAnalysis.is_answer_correct = false
      ∧ skippedAnalysis.sentiment_score = 0
      ∧ skippedAnalysis.star_method_used = false
      ∧ skippedAnalysis.content_quality_score = 0 :=
  fun _ => ⟨rfl, rfl, rfl, rfl, rfl⟩

/-- An analysis record visibly different from the skipped-answer record,
and an engine producing it with one gateway call: a probe showing which
path `submit_response` takes. -/
def probeAnalysis : Analysis :=
  { skippedAnalysis with is_answer_correct := true, content_quality_score := 42 }

def probeEngine : String → Analysis × Nat := fun _ => (probeAnalysis, 1)

/-- **C3 counterexample**: an empty-string transcript is *not* evaluated
as a real short answer — `submit_response` replaces it by the skip
sentinel and produces the fixed skipped-answer record with zero engine
calls, even when a normal analysis engine is configured. -/
theorem submit_empty_transcript_goes_to_skip_path_cex :
    submit_response_analysis "" probeEngine = (skippedAnalysis, 0, skipSentinel)
    ∧ skippedAnalysis ≠ probeAnalysis :=
  ⟨rfl, by decide⟩

/-- **C3 amended**: a transcript that strips to the empty string is
replaced by the skip sentinel and handled through the skipped-question
path (fixed skipped record, no engine/gateway call, the sentinel stored
as the transcript); it is never evaluated through the normal scoring
path. -/
theorem submit_blank_transcript_skipped :
    ∀ (t : String) (engine : String → Analysis × Nat),
      (⟨pyStrip t⟩ : String) = "" →
      submit_response_analysis t engine = (skippedAnalysis, 0, skipSentinel) := by
  intro t engine h
  simp [submit_response_analysis, h]

/-- Witness for `submit_blank_transcript_skipped` on a whitespace-only
transcript. -/
theorem submit_blank_transcript_skipped_witness :
    submit_response_analysis "   " probeEngine = (skippedAnalysis, 0, skipSentinel) :=
  submit_blank_transcript_skipped "   " probeEngine (by decide)

/-- A concrete answer record whose question category is `"intro"`:
it maps to neither the Technical nor the Behavioral category. -/
def introResp : RespRecord :=
  { fluency_score := 0, sentiment_score := 0, words_per_minute := 0,
    filler_sum := 0, word_count := 0, pause_count := 0,
    star_method_used := false, content_quality_score := none,
    grammar_errors := [], category := "intro" }

/-- **C4**: report generation over the empty answer collection returns
the distinct "no responses" error signal — never a normal zero-score
report — before any score is computed or cached; every non-empty
collection instead yields a normal report.  Both the live
(`interview_service`) and the legacy (`services`) generator reject the
empty collection. -/
theorem report_empty_responses_error :
    generate_final_report [] = Except.error "No responses found."
    ∧ (∀ rs : List RespRecord, rs ≠ [] →
        generate_final_report rs = Except.ok (liveReport rs))
    ∧ Services.generate_final_report ([] : List RespRecord) =
        Except.error "No responses found for this session." := by
  refine ⟨rfl, fun rs h => ?_, rfl⟩
  unfold generate_final_report
  rw [if_neg h]

/-- Witness for `report_empty_responses_error` on a one-record session. -/
theorem report_empty_responses_error_witness :
    generate_final_report [introResp] = Except.ok (liveReport [introResp]) :=
  report_empty_responses_error.2.1 [introResp] (by decide)

/-- **C5 counterexample**: the legacy report generator emits a
`"Behavioral"` category entry for a session whose only answer is an
`"intro"` question — i.e. with *zero* answers mapping to the Behavioral
category — so a category score is emitted for a category with no
contributing answer. -/
theorem services_report_emits_behavioral_without_answers_cex :
    Services.behavioralResponses [introResp] = []
    ∧ Services.technicalResponses [introResp] = []
    ∧ (Services.categoryScores [introResp]).map (fun c => c.name) =
        ["Communication", "Content Quality", "Domain Knowledge", "Behavioral"] := by
  refine ⟨by decide, by decide, ?_⟩
  have ht : Services.technicalResponses [introResp] = [] := by decide
  simp [Services.categoryScores, ht]

/-- **C5 amended**: the legacy generator always emits exactly four
category entries — Communication, Content Quality, Technical (renamed
"Domain Knowledge" when no technical answers exist, but still emitted
and scored) and Behavioral — regardless of contributing answers; its
Technical and Behavioral scores always equal the Content score, so its
overall score reduces to the 0.4/0.4/0.1/0.1 blend of the Communication
and Content scores alone.  The live generator always emits exactly the
Communication and Content Quality categories, both computed from all
answers, and blends them 0.5/0.5 into the overall score. -/
theorem report_category_emission :
    (∀ rs : List RespRecord, (Services.categoryScores rs).map (fun c => c.name) =
        ["Communication", "Content Quality",
          (if Services.technicalResponses rs ≠ [] then "Technical" else "Domain Knowledge"),
          "Behavioral"])
    ∧ (∀ rs : List RespRecord,
        Services.techScore rs = contentScore rs ∧ Services.behavioralScore rs = contentScore rs)
    ∧ (∀ rs : List RespRecord, Services.overallScore rs =
        max 0 (min 100 (pyInt ((commScore rs : ℚ) * 0.4 + (contentScore rs : ℚ) * 0.4 +
          (contentScore rs : ℚ) * 0.1 + (contentScore rs : ℚ) * 0.1))))
    ∧ (∀ rs : List RespRecord, (liveReport rs).category_scores.map (fun c => c.name) =
        ["Communication", "Content Quality"])
    ∧ (∀ rs : List RespRecord, overallScore rs =
        max 0 (min 100 (pyInt ((commScore rs : ℚ) * 0.5 + (contentScore rs : ℚ) * 0.5)))) := by
  have htech : ∀ rs : List RespRecord, Services.techScore rs = contentScore rs := by
    intro rs
    unfold Services.techScore
    split <;> rfl
  have hbeh : ∀ rs : List RespRecord, Services.behavioralScore rs = contentScore rs := by
    intro rs
    unfold Services.behavioralScore
    split <;> rfl
  refine ⟨fun rs => rfl, fun rs => ⟨htech rs, hbeh rs⟩, fun rs => ?_, fun rs => rfl,
    fun rs => rfl⟩
  unfold Services.overallScore
  rw [htech rs, hbeh rs]

/-- The gateway environment with zero configured backends: all seven
`HAS_*` flags false, every backend call raising if it were ever made. -/
def envAllOff : AIEnv :=
  { hasGroq := false, hasCerebras := false, hasGemini := false,
    hasOpenRouter := false, hasBytez := false, hasOpenAI := false,
    hasPerplexity := false,
    groq := fun _ _ => .error "unavailable",
    cerebras := fun _ _ => .error "unavailable",
    gemini := fun _ _ => .error "unavailable",
    openrouter := fun _ _ => .error "unavailable",
    bytez := fun _ _ => .error "unavailable",
    openaiMini := fun _ _ => .error "unavailable",
    openai35 := fun _ _ => .error "unavailable",
    perpSmall := fun _ _ => .error "unavailable",
    perpLarge := fun _ _ => .error "unavailable",
    perpSonar := fun _ _ => .error "unavailable",
    geminiFirst := true, raceCompletions := 2 }

/-- **C1**: for every environment (flags, backend behaviours including
arbitrary raises, race schedule), every prompt and every temperature,
`call_ai` returns normally — never `.error`, i.e. no backend exception
reaches the caller — and with zero configured backends it returns the
absent result `none`. -/
theorem call_ai_total_no_backends :
    (∀ (env : AIEnv) (prompt : String) (temperature : ℚ),
        ∃ v, call_ai env prompt temperature = Except.ok v)
    ∧ (∀ (env : AIEnv) (prompt : String) (temperature : ℚ),
        env.allOff = true → call_ai env prompt temperature = Except.ok none) := by
  constructor
  · intro env p t
    unfold call_ai
    repeat' split
    all_goals exact ⟨_, rfl⟩
  · intro env p t h
    simp only [AIEnv.allOff, Bool.and_eq_true, Bool.not_eq_true'] at h
    obtain ⟨⟨⟨⟨⟨⟨h1, h2⟩, h3⟩, h4⟩, h5⟩, h6⟩, h7⟩ := h
    simp [call_ai, tryModels, raceWinner, tryBytez, h1, h2, h3, h4, h5, h6, h7]

/-- Witness for `call_ai_total_no_backends` on the concrete
zero-backend environment. -/
theorem call_ai_total_no_backends_witness :
    call_ai envAllOff "Generate 12-14 UNIQUE interview questions" 1 = Except.ok none :=
  call_ai_total_no_backends.2 envAllOff "Generate 12-14 UNIQUE interview questions" 1 rfl

/-! ### Field-preservation lemmas for the normalizer steps -/

theorem truthyQ_isSome {o : Option ℚ} (h : truthyQ o = true) : o.isSome = true := by
  cases o with
  | none => simp [truthyQ] at h
  | some q => rfl

theorem nvWordCount_wpm (v : VoiceMetricsRaw) (t : String) :
    (nvWordCount v t).words_per_minute = v.words_per_minute := by
  unfold nvWordCount; split <;> rfl

theorem nvWordCount_sd (v : VoiceMetricsRaw) (t : String) :
    (nvWordCount v t).speaking_duration_seconds = v.speaking_duration_seconds := by
  unfold nvWordCount; split <;> rfl

theorem nvWordCount_filler (v : VoiceMetricsRaw) (t : String) :
    (nvWordCount v t).filler_words = v.filler_words := by
  unfold nvWordCount; split <;> rfl

theorem nvWordCount_pause (v : VoiceMetricsRaw) (t : String) :
    (nvWordCount v t).pause_count = v.pause_count := by
  unfold nvWordCount; split <;> rfl

theorem nvWordCount_vol (v : VoiceMetricsRaw) (t : String) :
    (nvWordCount v t).average_volume = v.average_volume := by
  unfold nvWordCount; split <;> rfl

theorem nvWordCount_wc_truthy {v : VoiceMetricsRaw} (t : String)
    (h : truthyQ v.word_count = true) : (nvWordCount v t).word_count = v.word_count := by
  unfold nvWordCount; rw [if_pos h]

/-- The word count the normalizer works with after step 1: the existing
truthy entry, or the transcript's whitespace word count. -/
def wordCountOf (v : VoiceMetricsRaw) (t : String) : ℚ :=
  if truthyQ v.word_count then v.word_count.getD 0 else ((pyWords t).length : ℚ)

theorem nvWordCount_getD (v : VoiceMetricsRaw) (t : String) :
    (nvWordCount v t).word_count.getD 0 = wordCountOf v t := by
  unfold nvWordCount wordCountOf
  split <;> simp

theorem nvWpm_wc (v : VoiceMetricsRaw) : (nvWpm v).word_count = v.word_count := by
  unfold nvWpm nvWpmFromDuration nvWpmDefault
  split_ifs <;> rfl

theorem nvWpm_filler (v : VoiceMetricsRaw) : (nvWpm v).filler_words = v.filler_words := by
  unfold nvWpm nvWpmFromDuration nvWpmDefault
  split_ifs <;> rfl

theorem nvWpm_pause (v : VoiceMetricsRaw) : (nvWpm v).pause_count = v.pause_count := by
  unfold nvWpm nvWpmFromDuration nvWpmDefault
  split_ifs <;> rfl

theorem nvWpm_vol (v : VoiceMetricsRaw) : (nvWpm v).average_volume = v.average_volume := by
  unfold nvWpm nvWpmFromDuration nvWpmDefault
  split_ifs <;> rfl

theorem nvWpm_wpm_truthy {v : VoiceMetricsRaw} (h : truthyQ v.words_per_minute = true) :
    (nvWpm v).words_per_minute = v.words_per_minute := by
  unfold nvWpm nvWpmFromDuration nvWpmDefault
  split_ifs with h1 h2 h3
  · rw [h2.1] at h; exact absurd h (by simp)
  · rfl
  · rfl
  · exact absurd (truthyQ_isSome h) (by simp [h3])

theorem nvWpm_sets {v : VoiceMetricsRaw} {d : ℚ} (hsd : v.speaking_duration_seconds = some d)
    (hd : 0 < d) (hw : truthyQ v.words_per_minute = false) :
    (nvWpm v).words_per_minute = some ((pyInt (v.word_count.getD 0 / d * 60) : ℤ) : ℚ) := by
  have ht : truthyQ v.speaking_duration_seconds = true := by
    rw [hsd]
    simp [truthyQ, bne_iff_ne]
    exact hd.ne'
  unfold nvWpm nvWpmFromDuration
  rw [if_pos ht, if_pos ⟨hw, by rw [hsd]; exact hd⟩]
  simp [hsd]

theorem nvFiller_wc (v : VoiceMetricsRaw) : (nvFiller v).word_count = v.word_count := by
  unfold nvFiller; split <;> rfl

theorem nvFiller_wpm (v : VoiceMetricsRaw) :
    (nvFiller v).words_per_minute = v.words_per_minute := by
  unfold nvFiller; split <;> rfl

theorem nvFiller_pause (v : VoiceMetricsRaw) : (nvFiller v).pause_count = v.pause_count := by
  unfold nvFiller; split <;> rfl

theorem nvFiller_vol (v : VoiceMetricsRaw) :
    (nvFiller v).average_volume = v.average_volume := by
  unfold nvFiller; split <;> rfl

theorem nvFiller_keeps {v : VoiceMetricsRaw} (h : v.filler_words.isSome = true) :
    (nvFiller v).filler_words = v.filler_words := by
  unfold nvFiller; rw [if_pos h]

theorem nvPause_wc (v : VoiceMetricsRaw) : (nvPause v).word_count = v.word_count := by
  unfold nvPause; split <;> rfl

theorem nvPause_wpm (v : VoiceMetricsRaw) :
    (nvPause v).words_per_minute = v.words_per_minute := by
  unfold nvPause; split <;> rfl

theorem nvPause_filler (v : VoiceMetricsRaw) : (nvPause v).filler_words = v.filler_words := by
  unfold nvPause; split <;> rfl

theorem nvPause_vol (v : VoiceMetricsRaw) :
    (nvPause v).average_volume = v.average_volume := by
  unfold nvPause; split <;> rfl

theorem nvPause_keeps {v : VoiceMetricsRaw} (h : v.pause_count.isSome = true) :
    (nvPause v).pause_count = v.pause_count := by
  unfold nvPause; rw [if_pos h]

theorem nvAvgVol_wc (v : VoiceMetricsRaw) : (nvAvgVol v).word_count = v.word_count := by
  unfold nvAvgVol; split <;> rfl

theorem nvAvgVol_wpm (v : VoiceMetricsRaw) :
    (nvAvgVol v).words_per_minute = v.words_per_minute := by
  unfold nvAvgVol; split <;> rfl

theorem nvAvgVol_filler (v : VoiceMetricsRaw) :
    (nvAvgVol v).filler_words = v.filler_words := by
  unfold nvAvgVol; split <;> rfl

theorem nvAvgVol_pause (v : VoiceMetricsRaw) : (nvAvgVol v).pause_count = v.pause_count := by
  unfold nvAvgVol; split <;> rfl

theorem nvAvgVol_keeps {v : VoiceMetricsRaw} (h : v.average_volume.isSome = true) :
    (nvAvgVol v).average_volume = v.average_volume := by
  unfold nvAvgVol; rw [if_pos h]

/-- A raw metrics dictionary with a positive `speaking_duration_seconds`
(7s) and no `words_per_minute`/`word_count` entries. -/
def shortVoice : VoiceMetricsRaw :=
  { word_count := none, words_per_minute := none,
    speaking_duration_seconds := some 7, filler_words := none,
    pause_count := none, average_volume := none }

/-- **C8 counterexample**: for a one-word transcript with a 7-second
duration, the normalizer stores `words_per_minute = 8` — the value of
`int(1/7*60)`, truncated — whereas rounding `1/7*60 ≈ 8.57` to the
nearest integer gives 9.  The claimed `round(...)` disagrees with the
code's `int(...)` here. -/
theorem wpm_truncation_cex :
    (normalizeVoice shortVoice "hello").words_per_minute = some 8
    ∧ pyRound ((1 : ℚ) / 7 * 60) = 9 := by
  constructor
  · unfold normalizeVoice
    rw [nvAvgVol_wpm, nvPause_wpm, nvFiller_wpm]
    have h1 : (nvWordCount shortVoice "hello").speaking_duration_seconds = some 7 := by
      rw [nvWordCount_sd]; rfl
    have h2 : truthyQ (nvWordCount shortVoice "hello").words_per_minute = false := by
      rw [nvWordCount_wpm]; rfl
    rw [nvWpm_sets h1 (by norm_num) h2, nvWordCount_getD]
    have hwc : wordCountOf shortVoice "hello" = 1 := by decide
    rw [hwc]
    norm_num [pyInt]
  · norm_num [pyRound]

/-- **C8 amended**: when `speaking_duration_seconds` is present and
positive and `words_per_minute` is missing or falsy, the normalizer
computes `words_per_minute = int(word_count / duration * 60)` —
truncated toward zero, not rounded to the nearest integer. -/
theorem wpm_truncation :
    ∀ (v : VoiceMetricsRaw) (t : String) (d : ℚ),
      v.speaking_duration_seconds = some d → 0 < d →
      truthyQ v.words_per_minute = false →
      (normalizeVoice v t).words_per_minute =
        some ((pyInt (wordCountOf v t / d * 60) : ℤ) : ℚ) := by
  intro v t d hsd hd hw
  unfold normalizeVoice
  rw [nvAvgVol_wpm, nvPause_wpm, nvFiller_wpm]
  have h1 : (nvWordCount v t).speaking_duration_seconds = some d := by
    rw [nvWordCount_sd]; exact hsd
  have h2 : truthyQ (nvWordCount v t).words_per_minute = false := by
    rw [nvWordCount_wpm]; exact hw
  rw [nvWpm_sets h1 hd h2, nvWordCount_getD]

/-- Witness for `wpm_truncation` on the concrete 7-second metrics. -/
theorem wpm_truncation_witness :
    (normalizeVoice shortVoice "one two three").words_per_minute =
      some ((pyInt (wordCountOf shortVoice "one two three" / 7 * 60) : ℤ) : ℚ) :=
  wpm_truncation shortVoice "one two three" 7 rfl (by norm_num) rfl

/-- **C9**: the normalizer only rewrites the `voiceMetrics` entry of its
input mapping — every other top-level entry is returned unchanged — and
inside `voiceMetrics` it preserves an already-present truthy
`word_count`, an already-present truthy `words_per_minute`, an
already-present `filler_words` dictionary, and already-present
`pause_count`/`average_volume` entries (the latter two even when falsy,
via `setdefault`). -/
theorem normalize_metrics_frame :
    ∀ (m : FluencyMetrics) (t : String),
      (validate_and_normalize_metrics m t).extra = m.extra
      ∧ (validate_and_normalize_metrics m t).voiceMetrics =
          some (normalizeVoice (m.voiceMetrics.getD emptyVoice) t)
      ∧ ∀ v : VoiceMetricsRaw, m.voiceMetrics = some v →
          (truthyQ v.word_count = true → (normalizeVoice v t).word_count = v.word_count)
          ∧ (truthyQ v.words_per_minute = true →
              (normalizeVoice v t).words_per_minute = v.words_per_minute)
          ∧ (∀ fw, v.filler_words = some fw → (normalizeVoice v t).filler_words = some fw)
          ∧ (∀ x, v.pause_count = some x → (normalizeVoice v t).pause_count = some x)
          ∧ (∀ x, v.average_volume = some x → (normalizeVoice v t).average_volume = some x) := by
  intro m t
  refine ⟨rfl, rfl, fun v hv => ⟨?_, ?_, ?_, ?_, ?_⟩⟩
  · intro h
    unfold normalizeVoice
    rw [nvAvgVol_wc, nvPause_wc, nvFiller_wc, nvWpm_wc, nvWordCount_wc_truthy t h]
  · intro h
    unfold normalizeVoice
    rw [nvAvgVol_wpm, nvPause_wpm, nvFiller_wpm,
      nvWpm_wpm_truthy (by rw [nvWordCount_wpm]; exact h), nvWordCount_wpm]
  · intro fw hfw
    unfold normalizeVoice
    have hx : (nvWpm (nvWordCount v t)).filler_words = some fw := by
      rw [nvWpm_filler, nvWordCount_filler]; exact hfw
    rw [nvAvgVol_filler, nvPause_filler, nvFiller_keeps (by rw [hx]; rfl), hx]
  · intro x hx
    unfold normalizeVoice
    have hp : (nvFiller (nvWpm (nvWordCount v t))).pause_count = some x := by
      rw [nvFiller_pause, nvWpm_pause, nvWordCount_pause]; exact hx
    rw [nvAvgVol_pause, nvPause_keeps (by rw [hp]; rfl), hp]
  · intro x hx
    unfold normalizeVoice
    have ha : (nvPause (nvFiller (nvWpm (nvWordCount v t)))).average_volume = some x := by
      rw [nvPause_vol, nvFiller_vol, nvWpm_vol, nvWordCount_vol]; exact hx
    rw [nvAvgVol_keeps (by rw [ha]; rfl), ha]

/-- A fully-populated concrete metrics mapping (with falsy
`pause_count`/`average_volume` entries and a non-voice top-level
entry). -/
def sampleVoice : VoiceMetricsRaw :=
  { word_count := some 5, words_per_minute := some 130,
    speaking_duration_seconds := some 2, filler_words := some [("um", 2)],
    pause_count := some 0, average_volume := some 0 }

def sampleMetrics : FluencyMetrics :=
  { voiceMetrics := some sampleVoice, extra := [("eyeContact", "0.4")] }

/-- Witness for `normalize_metrics_frame` on the concrete mapping. -/
theorem normalize_metrics_frame_witness :
    (validate_and_normalize_metrics sampleMetrics "x y").extra = sampleMetrics.extra
    ∧ (normalizeVoice sampleVoice "x y").word_count = sampleVoice.word_count
    ∧ (normalizeVoice sampleVoice "x y").words_per_minute = sampleVoice.words_per_minute
    ∧ (normalizeVoice sampleVoice "x y").filler_words = some [("um", 2)]
    ∧ (normalizeVoice sampleVoice "x y").pause_count = some 0
    ∧ (normalizeVoice sampleVoice "x y").average_volume = some 0 := by
  obtain ⟨he, _, hrest⟩ := normalize_metrics_frame sampleMetrics "x y"
  obtain ⟨h1, h2, h3, h4, h5⟩ := hrest sampleVoice rfl
  exact ⟨he, h1 (by decide), h2 (by decide), h3 _ rfl, h4 _ rfl, h5 _ rfl⟩

/-! ### Sub-score bounds for `calculate_content_quality` -/

theorem contentLengthScore_ge (wc : Nat) : 5 ≤ contentLengthScore wc := by
  unfold contentLengthScore
  split_ifs <;> norm_num

theorem contentStructureScore_nonneg (a : String) : 0 ≤ contentStructureScore a := by
  simp only [contentStructureScore]
  split_ifs <;> norm_num

theorem contentRelevanceScore_nonneg (q a : String) : 0 ≤ contentRelevanceScore q a := by
  simp only [contentRelevanceScore]
  split_ifs with h
  · exact le_min (by norm_num) (by positivity)
  · norm_num

/-- **C10**: `calculate_content_quality` returns exactly 0 precisely for
an empty answer or one whose stripped length is under 5 characters, and
for every answer passing that check the result lies in [5, 100] — the
length sub-score contributes at least 5 and the cap is 100, so scores
1 through 4 are impossible. -/
theorem content_quality_range :
    ∀ (question_text answer_text : String),
      (calculate_content_quality question_text answer_text = 0 ↔
        (answer_text = "" ∨ (pyStrip answer_text).length < 5))
      ∧ (¬(answer_text = "" ∨ (pyStrip answer_text).length < 5) →
          5 ≤ calculate_content_quality question_text answer_text
          ∧ calculate_content_quality question_text answer_text ≤ 100) := by
  intro q a
  by_cases hg : a = "" ∨ (pyStrip a).length < 5
  · have h0 : calculate_content_quality q a = 0 := by
      unfold calculate_content_quality
      rw [if_pos hg]
    exact ⟨iff_of_true h0 hg, fun h => absurd hg h⟩
  · have hbody : calculate_content_quality q a =
        min 100 (pyInt (contentLengthScore (pyWords a).length +
          ((min 25 (contentSpecificityRaw a) : Nat) : ℚ) +
          contentStructureScore a + contentRelevanceScore q a)) := by
      unfold calculate_content_quality
      rw [if_neg hg]
    have h5 : (5 : ℚ) ≤ contentLengthScore (pyWords a).length +
        ((min 25 (contentSpecificityRaw a) : Nat) : ℚ) +
        contentStructureScore a + contentRelevanceScore q a := by
      have h1 := contentLengthScore_ge (pyWords a).length
      have h2 : (0 : ℚ) ≤ ((min 25 (contentSpecificityRaw a) : Nat) : ℚ) :=
        Nat.cast_nonneg _
      have h3 := contentStructureScore_nonneg a
      have h4 := contentRelevanceScore_nonneg q a
      linarith
    have hpy : (5 : ℤ) ≤ pyInt (contentLengthScore (pyWords a).length +
        ((min 25 (contentSpecificityRaw a) : Nat) : ℚ) +
        contentStructureScore a + contentRelevanceScore q a) := by
      unfold pyInt
      rw [if_pos (le_trans (by norm_num) h5)]
      refine Int.le_floor.mpr ?_
      exact_mod_cast h5
    have hlow : (5 : ℤ) ≤ calculate_content_quality q a := by
      rw [hbody]
      exact le_min (by norm_num) hpy
    refine ⟨⟨fun h0 => ?_, fun h => absurd h hg⟩, fun _ => ⟨hlow, ?_⟩⟩
    · rw [h0] at hlow
      norm_num at hlow
    · rw [hbody]
      exact min_le_left _ _

/-- Witness for `content_quality_range` on a concrete short answer. -/
theorem content_quality_range_witness :
    ¬("hello there my friend" = "" ∨ (pyStrip "hello there my friend").length < 5)
    ∧ 5 ≤ calculate_content_quality "Tell me about yourself" "hello there my friend"
    ∧ calculate_content_quality "Tell me about yourself" "hello there my friend" ≤ 100 :=
  ⟨by decide,
   (content_quality_range "Tell me about yourself" "hello there my friend").2 (by decide)⟩
